import Mathlib

/-!
Shallow embedding of the macOS (Bonjour) backend of `zeroconf-rs`:
`src/zeroconf/src/macos/browser.rs` and `src/zeroconf/src/macos/service.rs`.

Modelling conventions:
* `DNSServiceErrorType` (an `i32`) is `Int`; the code only compares it with 0
  and prints it, so no wrap-around arithmetic occurs.
* Ports (`u16`) are `Nat`; the code only stores and copies them.
* C strings that the callbacks copy into owned strings are `String`.
* `Option<Box<ServiceDiscoveredCallback>>` is `Option Unit`: the callback value
  itself is opaque, only its presence matters.  Invoking the callback is
  modelled by emitting a `BrowseDelivery` / `RegisterDelivery` event carrying
  the result and the cloned user-context handle; `warn!` is modelled by
  emitting a warning string.
* `Option<Arc<dyn Any>>` user contexts are `Option Nat`: an opaque,
  clonable-by-identity handle.
* The `sockaddr` → textual IP conversion `get_ip` (inet_ntoa over raw memory)
  is abstracted: the address-stage callback receives the already-converted
  textual IP.
* A Rust `Option::unwrap` panic is modelled by returning `none` from the
  handler (`Option` result); all verified executions stay in `some`.
* Mutation of `*mut BonjourBrowserContext` is modelled by explicit state
  passing: each handler returns the updated context together with the list of
  backend requests it issued and the deliveries/warnings it emitted.
-/

/-- The record delivered on successful three-stage discovery
(`ServiceDiscovery` built in `handle_get_address_info`). -/
structure ServiceDiscovery where
  name : String
  kind : String
  domain : String
  host_name : String
  address : String
  port : Nat
deriving Repr, DecidableEq

/-- The record delivered on successful registration
(`ServiceRegistration` built in `handle_register`). -/
structure ServiceRegistration where
  name : String
  kind : String
  domain : String
deriving Repr, DecidableEq

/-- Modelled from the spec: `compat::normalize_domain` lives in
`src/zeroconf/src/macos/compat.rs`, which is not among the provided sources.
Per spec §4.3 the backend's domain strings "may include a
representation-specific suffix/format; normalization strips/rewrites this to
the canonical public form" (a pure function), per the §8 scenario
`"local."` normalizes to `"local"`, and per §8 normalization is idempotent.
We therefore strip the representation-specific trailing-dot suffix, yielding
the canonical public form with no trailing dots. -/
def compat.normalize_domain (domain : String) : String :=
  ⟨(List.dropWhile (fun c => c = '.') domain.data.reverse).reverse⟩

/-- State of `BonjourBrowserContext` (browser.rs).  Field order and names
follow the Rust struct; `#[derive(Default)]` gives all-`none` fields and
`resolved_port = 0`. -/
structure BonjourBrowserContext where
  service_discovered_callback : Option Unit
  resolved_name : Option String
  resolved_kind : Option String
  resolved_domain : Option String
  resolved_port : Nat
  user_context : Option Nat
deriving Repr, DecidableEq

/-- `Default::default()` for `BonjourBrowserContext`. -/
def BonjourBrowserContext.default : BonjourBrowserContext :=
  ⟨none, none, none, none, 0, none⟩

instance {ε α : Type} [DecidableEq ε] [DecidableEq α] : DecidableEq (Except ε α)
  | .ok a, .ok b =>
    if h : a = b then .isTrue (by rw [h]) else .isFalse (by simp [h])
  | .ok _, .error _ => .isFalse (by simp)
  | .error _, .ok _ => .isFalse (by simp)
  | .error e, .error f =>
    if h : e = f then .isTrue (by rw [h]) else .isFalse (by simp [h])

/-- One invocation of the user's `ServiceDiscoveredCallback`: the `Result`
argument and the `user_context.clone()` handle passed alongside it. -/
structure BrowseDelivery where
  result : Except String ServiceDiscovery
  userContext : Option Nat
deriving Repr, DecidableEq

/-- The `warn!` message of `invoke_callback` when no callback is set. -/
def warn_no_callback : String := "attempted to invoke callback but none was set"

/-- `BonjourBrowserContext::invoke_callback` (browser.rs): takes `&self`, so
the context is not mutated; returns the deliveries made and warnings logged. -/
def BonjourBrowserContext.invoke_callback (ctx : BonjourBrowserContext)
    (result : Except String ServiceDiscovery) :
    List BrowseDelivery × List String :=
  match ctx.service_discovered_callback with
  | some _ => ([⟨result, ctx.user_context⟩], [])
  | none => ([], [warn_no_callback])

/-- `kDNSServiceFlagsForceMulticast` from `bonjour_sys`. -/
def kDNSServiceFlagsForceMulticast : Nat := 1024

/-- An asynchronous request issued to the backend
(`ManagedDNSServiceRef::resolve_service` / `get_address_info`), with the
parameters the browser passes. -/
inductive Request where
  | resolve_service (flags : Nat) (interface_index : Nat)
      (name : String) (regtype : String) (domain : String)
  | get_address_info (flags : Nat) (interface_index : Nat) (protocol : Nat)
      (hostname : String)
deriving Repr, DecidableEq

/-- Error message built by `handle_browse` on a nonzero code. -/
def browse_error_msg (error : Int) : String :=
  "browse_callback() reported error (code: " ++ toString error ++ ")"

/-- Error message built by `handle_resolve` on a nonzero code. -/
def resolve_error_msg (error : Int) : String :=
  "error reported by resolve_callback: (code: " ++ toString error ++ ")"

/-- Error message built by `handle_get_address_info` on a nonzero code. -/
def address_error_msg (error : Int) : String :=
  "get_address_info_callback() reported error (code: " ++ toString error ++ ")"

/-- Error message built by `handle_register` on a nonzero code. -/
def register_error_msg (error : Int) : String :=
  "register_callback() reported error (code: " ++ toString error ++ ")"

/-- `handle_browse` (browser.rs): on a nonzero error code, fail; otherwise
store the event's name/regtype/domain and issue the stage-2 resolve request. -/
def handle_browse (ctx : BonjourBrowserContext) (error : Int)
    (name regtype domain : String) (interface_index : Nat) :
    BonjourBrowserContext × List Request × Except String Unit :=
  if error ≠ 0 then
    (ctx, [], .error (browse_error_msg error))
  else
    let ctx := { ctx with
      resolved_name := some name
      resolved_kind := some regtype
      resolved_domain := some domain }
    (ctx,
     [.resolve_service kDNSServiceFlagsForceMulticast interface_index
        name regtype domain],
     .ok ())

/-- `browse_callback` (browser.rs): run `handle_browse`; if it returns an
error, deliver it through `invoke_callback`. -/
def browse_callback (ctx : BonjourBrowserContext) (error : Int)
    (name regtype domain : String) (interface_index : Nat) :
    BonjourBrowserContext × List Request × List BrowseDelivery × List String :=
  match handle_browse ctx error name regtype domain interface_index with
  | (ctx, reqs, .ok _) => (ctx, reqs, [], [])
  | (ctx, reqs, .error e) =>
    let (ds, ws) := ctx.invoke_callback (.error e)
    (ctx, reqs, ds, ws)

/-- `handle_resolve` (browser.rs): on a nonzero error code, fail; otherwise
store the port and issue the stage-3 address request for `host_target`. -/
def handle_resolve (ctx : BonjourBrowserContext) (error : Int)
    (port : Nat) (interface_index : Nat) (host_target : String) :
    BonjourBrowserContext × List Request × Except String Unit :=
  if error ≠ 0 then
    (ctx, [], .error (resolve_error_msg error))
  else
    let ctx := { ctx with resolved_port := port }
    (ctx,
     [.get_address_info kDNSServiceFlagsForceMulticast interface_index 0
        host_target],
     .ok ())

/-- `resolve_callback` (browser.rs): run `handle_resolve`; if it returns an
error, deliver it through `invoke_callback`. -/
def resolve_callback (ctx : BonjourBrowserContext) (error : Int)
    (port : Nat) (interface_index : Nat) (host_target : String) :
    BonjourBrowserContext × List Request × List BrowseDelivery × List String :=
  match handle_resolve ctx error port interface_index host_target with
  | (ctx, reqs, .ok _) => (ctx, reqs, [], [])
  | (ctx, reqs, .error e) =>
    let (ds, ws) := ctx.invoke_callback (.error e)
    (ctx, reqs, ds, ws)

/-- `handle_get_address_info` (browser.rs).  Guard: if `resolved_name` is
absent the callback fired again after completion, so return `Ok` with no
delivery.  On a nonzero error code, fail.  Otherwise take ownership of the
three stored strings (in source order: domain, name, kind — each
`take().unwrap()`, panic modelled as `none`), normalize the domain, build the
`ServiceDiscovery` with the callback's hostname, the converted IP and the
stored port, and deliver it.  `address_ip` is `get_ip(address)` already
converted to text. -/
def handle_get_address_info (ctx : BonjourBrowserContext) (error : Int)
    (address_ip : String) (hostname : String) :
    Option (BonjourBrowserContext × List BrowseDelivery × List String ×
            Except String Unit) :=
  if ctx.resolved_name.isNone then
    some (ctx, [], [], .ok ())
  else if error ≠ 0 then
    some (ctx, [], [], .error (address_error_msg error))
  else
    match ctx.resolved_domain, ctx.resolved_name, ctx.resolved_kind with
    | some d, some n, some k =>
      let domain := compat.normalize_domain d
      let ctx := { ctx with
        resolved_domain := none
        resolved_name := none
        resolved_kind := none }
      let sd : ServiceDiscovery :=
        { name := n, kind := k, domain := domain, host_name := hostname,
          address := address_ip, port := ctx.resolved_port }
      let (ds, ws) := ctx.invoke_callback (.ok sd)
      some (ctx, ds, ws, .ok ())
    | _, _, _ => none

/-- `get_address_info_callback` (browser.rs): run `handle_get_address_info`;
if it returns an error, deliver it through `invoke_callback`. -/
def get_address_info_callback (ctx : BonjourBrowserContext) (error : Int)
    (address_ip : String) (hostname : String) :
    Option (BonjourBrowserContext × List BrowseDelivery × List String) :=
  match handle_get_address_info ctx error address_ip hostname with
  | none => none
  | some (ctx, ds, ws, .ok _) => some (ctx, ds, ws)
  | some (ctx, ds, ws, .error e) =>
    let (ds2, ws2) := ctx.invoke_callback (.error e)
    some (ctx, ds ++ ds2, ws ++ ws2)

/-- One fully-successful three-stage chain with no interleaved events: the
browse event fires with error 0; the backend then fires the resolve callback
with error 0 for the request `handle_browse` issued, reporting `host_target`
and `port`; then fires the address callback with error 0 for the request
`handle_resolve` issued, echoing the requested hostname (`host_target`) and
resolving it to `address_ip`. -/
def run_chain (ctx : BonjourBrowserContext)
    (name regtype domain : String) (interface_index : Nat)
    (host_target : String) (port : Nat) (address_ip : String) :
    Option (BonjourBrowserContext × List BrowseDelivery) :=
  let (ctx1, _, d1, _) :=
    browse_callback ctx 0 name regtype domain interface_index
  let (ctx2, _, d2, _) :=
    resolve_callback ctx1 0 port interface_index host_target
  match get_address_info_callback ctx2 0 address_ip host_target with
  | none => none
  | some (ctx3, d3, _) => some (ctx3, d1 ++ d2 ++ d3)

/-- State of `BonjourServiceContext` (service.rs). -/
structure BonjourServiceContext where
  registered_callback : Option Unit
  user_context : Option Nat
deriving Repr, DecidableEq

/-- One invocation of the user's `ServiceRegisteredCallback`. -/
structure RegisterDelivery where
  result : Except String ServiceRegistration
  userContext : Option Nat
deriving Repr, DecidableEq

/-- `BonjourServiceContext::invoke_callback` (service.rs): takes `&self`;
returns the deliveries made and warnings logged. -/
def BonjourServiceContext.invoke_callback (ctx : BonjourServiceContext)
    (result : Except String ServiceRegistration) :
    List RegisterDelivery × List String :=
  match ctx.registered_callback with
  | some _ => ([⟨result, ctx.user_context⟩], [])
  | none => ([], [warn_no_callback])

/-- `handle_register` (service.rs): on a nonzero error code, fail; otherwise
build the `ServiceRegistration` from the backend's echoed name/regtype and the
normalized echoed domain, and deliver it.  Takes `&self`: no mutation. -/
def handle_register (ctx : BonjourServiceContext) (error : Int)
    (domain name regtype : String) :
    List RegisterDelivery × List String × Except String Unit :=
  if error ≠ 0 then
    ([], [], .error (register_error_msg error))
  else
    let domain := compat.normalize_domain domain
    let result : ServiceRegistration :=
      { name := name, kind := regtype, domain := domain }
    let (ds, ws) := ctx.invoke_callback (.ok result)
    (ds, ws, .ok ())

/-- `register_callback` (service.rs): run `handle_register`; if it returns an
error, deliver it through `invoke_callback`. -/
def register_callback (ctx : BonjourServiceContext) (error : Int)
    (name regtype domain : String) :
    List RegisterDelivery × List String :=
  match handle_register ctx error domain name regtype with
  | (ds, ws, .ok _) => (ds, ws)
  | (ds, ws, .error e) =>
    let (ds2, ws2) := ctx.invoke_callback (.error e)
    (ds ++ ds2, ws ++ ws2)

/-- The parameter set `BonjourMdnsService::start` builds for
`register_service` (service.rs): a `none` name models the null pointer passed
when no explicit name was set, so the backend auto-assigns one. -/
structure RegisterServiceParams where
  flags : Nat
  interface_index : Nat
  name : Option String
  regtype : String
  domain : Option String
  host : Option String
  port : Nat
deriving Repr, DecidableEq

/-- `BonjourMdnsService::start` (service.rs): the name pointer is
`self.name.as_ref().map(..).unwrap_or(null)`; flags are
`BONJOUR_RENAME_FLAGS = 0`; domain and host are null. -/
def BonjourMdnsService.start_register_params (kind : String) (port : Nat)
    (name : Option String) (interface_index : Nat) : RegisterServiceParams :=
  { flags := 0, interface_index := interface_index, name := name,
    regtype := kind, domain := none, host := none, port := port }

theorem dropWhile_self (p : Char → Bool) (l : List Char) :
    List.dropWhile p (List.dropWhile p l) = List.dropWhile p l := by
  induction l with
  | nil => rfl
  | cons c cs ih =>
    cases h : p c with
    | true => simp [List.dropWhile_cons, h, ih]
    | false => simp [List.dropWhile_cons, h]

/-- C8: domain normalization is idempotent: for every input string `d`,
`normalize(normalize(d)) = normalize(d)`. -/
theorem C8_normalize_domain_idempotent (d : String) :
    compat.normalize_domain (compat.normalize_domain d) =
      compat.normalize_domain d := by
  unfold compat.normalize_domain
  simp [List.reverse_reverse, dropWhile_self]

/-- C2: when `resolved_name` is absent (the chain already completed and its
fields were moved out), a second firing of the address-resolution callback
performs no delivery: `handle_get_address_info` returns success without
invoking the result callback and without mutating the context, and the
surrounding `get_address_info_callback` emits no delivery and no warning,
whatever the reported error code. -/
theorem C2_double_fire_guard (cb : Option Unit) (rk rd : Option String)
    (rp : Nat) (u : Option Nat) (error : Int) (ip host : String) :
    handle_get_address_info ⟨cb, none, rk, rd, rp, u⟩ error ip host
      = some (⟨cb, none, rk, rd, rp, u⟩, [], [], .ok ())
    ∧ get_address_info_callback ⟨cb, none, rk, rd, rp, u⟩ error ip host
      = some (⟨cb, none, rk, rd, rp, u⟩, [], []) :=
  ⟨rfl, rfl⟩

/-- C5 counterexample: a service-found browse event with error code zero does
NOT clear the previously stored port.  Starting from a context holding port
631 from a previous chain, handling a fresh browse event leaves
`resolved_port = 631` (clearing it would reset it to the default 0). -/
theorem C5_counterexample :
    ((browse_callback
        ⟨some (), some "Old", some "_old._tcp", some "old.", 631, none⟩
        0 "Printer" "_http._tcp" "local." 0).1).resolved_port = 631
    ∧ (631 : Nat) ≠ 0 := by
  constructor
  · rfl
  · decide

/-- C5 (amended): for every service-found browse event with error code zero,
`handle_browse` populates `resolved_name`, `resolved_kind` and
`resolved_domain` from the event's reported strings (overwriting any stale
values of those three fields), leaves every other field — including the
previously stored port — unchanged, and immediately issues the stage-2
resolve request; no delivery and no warning is emitted. -/
theorem C5_browse_event_populates (cb : Option Unit) (rn rk rd : Option String)
    (rp : Nat) (u : Option Nat) (n k d : String) (i : Nat) :
    browse_callback ⟨cb, rn, rk, rd, rp, u⟩ 0 n k d i
      = (⟨cb, some n, some k, some d, rp, u⟩,
         [.resolve_service kDNSServiceFlagsForceMulticast i n k d], [], []) :=
  rfl

/-- C10: for every nonzero error code, `handle_browse` and `handle_resolve`
return the failure before writing any context field: the returned context is
exactly the input context, and no next-stage request is issued. -/
theorem C10_error_atomicity (ctx : BonjourBrowserContext) (error : Int)
    (h : error ≠ 0) (n k d ht : String) (i p : Nat) :
    handle_browse ctx error n k d i = (ctx, [], .error (browse_error_msg error))
    ∧ handle_resolve ctx error p i ht
      = (ctx, [], .error (resolve_error_msg error)) := by
  constructor
  · simp [handle_browse, h]
  · simp [handle_resolve, h]

/-- C10 witness: concrete instance at error code 5. -/
theorem C10_error_atomicity_witness :
    handle_browse BonjourBrowserContext.default 5 "N" "K" "D" 0
      = (BonjourBrowserContext.default, [], .error (browse_error_msg 5))
    ∧ handle_resolve BonjourBrowserContext.default 5 9 0 "H"
      = (BonjourBrowserContext.default, [], .error (resolve_error_msg 5)) :=
  C10_error_atomicity BonjourBrowserContext.default 5 (by decide) "N" "K" "D"
    "H" 0 9

/-- C1 counterexample: in a fully-successful chain whose browse stage reports
domain `"local."`, the delivered `ServiceDiscovery.domain` is the normalized
`"local"`, not the string reported by the browse-stage callback — so the
claim's "domain equal the strings reported by the browse-stage callback"
fails as stated (the spec's own §8 scenario shows the same normalization). -/
theorem C1_counterexample :
    run_chain ⟨some (), none, none, none, 0, none⟩
        "Printer" "_http._tcp" "local." 0 "printer.local." 631 "192.168.1.50"
      = some (⟨some (), none, none, none, 631, none⟩,
          [⟨.ok ⟨"Printer", "_http._tcp", "local", "printer.local.",
              "192.168.1.50", 631⟩, none⟩])
    ∧ "local" ≠ "local." := by
  constructor
  · rfl
  · decide

/-- C1 (amended): for every browse event chain that completes all three
stages successfully with no interleaved events, exactly one
`ServiceDiscovery` is delivered to the registered callback; its `name` and
`kind` equal the strings reported by the browse-stage callback, its `domain`
equals the browse-stage's reported domain after normalization, its
`host_name` equals the host target passed from the resolve stage, its `port`
equals the port reported by the resolve stage, and its `address` equals the
IP resolved by the address stage. -/
theorem C1_chain_single_delivery (rn rk rd : Option String) (rp : Nat)
    (u : Option Nat) (n k d ht ip : String) (i p : Nat) :
    run_chain ⟨some (), rn, rk, rd, rp, u⟩ n k d i ht p ip
      = some (⟨some (), none, none, none, p, u⟩,
          [⟨.ok ⟨n, k, compat.normalize_domain d, ht, ip, p⟩, u⟩]) :=
  rfl

/-- C3: for every stage of an in-flight chain (for the address stage,
in-flight means `resolved_name` is present), a nonzero error code makes the
stage's callback invoke the registered result callback exactly once with a
failure whose message embeds the code, issue no request for the next stage,
and leave the context unchanged. -/
theorem C3_stage_error_single_failure (error : Int) (h : error ≠ 0)
    (rn rk rd : Option String) (rp : Nat) (u : Option Nat)
    (n k d ht ip nm : String) (i p : Nat) :
    browse_callback ⟨some (), rn, rk, rd, rp, u⟩ error n k d i
      = (⟨some (), rn, rk, rd, rp, u⟩, [],
         [⟨.error (browse_error_msg error), u⟩], [])
    ∧ resolve_callback ⟨some (), rn, rk, rd, rp, u⟩ error p i ht
      = (⟨some (), rn, rk, rd, rp, u⟩, [],
         [⟨.error (resolve_error_msg error), u⟩], [])
    ∧ get_address_info_callback ⟨some (), some nm, rk, rd, rp, u⟩ error ip ht
      = some (⟨some (), some nm, rk, rd, rp, u⟩,
          [⟨.error (address_error_msg error), u⟩], [])
    ∧ browse_error_msg error
      = "browse_callback() reported error (code: " ++ toString error ++ ")"
    ∧ resolve_error_msg error
      = "error reported by resolve_callback: (code: " ++ toString error ++ ")"
    ∧ address_error_msg error
      = "get_address_info_callback() reported error (code: "
          ++ toString error ++ ")" := by
  refine ⟨?_, ?_, ?_, rfl, rfl, rfl⟩
  · simp [browse_callback, handle_browse, h,
      BonjourBrowserContext.invoke_callback]
  · simp [resolve_callback, handle_resolve, h,
      BonjourBrowserContext.invoke_callback]
  · simp [get_address_info_callback, handle_get_address_info, h,
      BonjourBrowserContext.invoke_callback]

/-- C3 witness: concrete instance at error code 5. -/
theorem C3_stage_error_single_failure_witness :
    browse_callback ⟨some (), none, none, none, 0, none⟩ 5 "N" "K" "D" 0
      = (⟨some (), none, none, none, 0, none⟩, [],
         [⟨.error (browse_error_msg 5), none⟩], [])
    ∧ resolve_callback ⟨some (), none, none, none, 0, none⟩ 5 9 0 "H"
      = (⟨some (), none, none, none, 0, none⟩, [],
         [⟨.error (resolve_error_msg 5), none⟩], [])
    ∧ get_address_info_callback ⟨some (), some "NM", none, none, 0, none⟩
        5 "IP" "H"
      = some (⟨some (), some "NM", none, none, 0, none⟩,
          [⟨.error (address_error_msg 5), none⟩], [])
    ∧ browse_error_msg 5
      = "browse_callback() reported error (code: " ++ toString (5 : Int) ++ ")"
    ∧ resolve_error_msg 5
      = "error reported by resolve_callback: (code: "
          ++ toString (5 : Int) ++ ")"
    ∧ address_error_msg 5
      = "get_address_info_callback() reported error (code: "
          ++ toString (5 : Int) ++ ")" :=
  C3_stage_error_single_failure 5 (by decide) none none none 0 none
    "N" "K" "D" "H" "IP" "NM" 0 9

/-- C4: a successful registration completion delivers a
`ServiceRegistration` built from the name, type and domain echoed back by the
backend (the handler never even sees the requested values), with the domain
normalized; and `BonjourMdnsService::start` with no explicit name set passes
a null name (`none`) so the backend auto-assigns — the delivered name is
whatever name the backend echoed. -/
theorem C4_register_echoed_values (u : Option Nat) (name regtype domain : String)
    (kind : String) (port i : Nat) :
    register_callback ⟨some (), u⟩ 0 name regtype domain
      = ([⟨.ok ⟨name, regtype, compat.normalize_domain domain⟩, u⟩], [])
    ∧ (BonjourMdnsService.start_register_params kind port none i).name
      = none :=
  ⟨rfl, rfl⟩

/-- C6: for every delivery attempt (success or failure, browser or publisher)
made while no result callback has been registered, the result is dropped with
a logged warning: `invoke_callback` emits no delivery, raises no error, and
does nothing else. -/
theorem C6_no_callback_drops (rn rk rd : Option String) (rp : Nat)
    (u u2 : Option Nat) (r : Except String ServiceDiscovery)
    (r2 : Except String ServiceRegistration) :
    BonjourBrowserContext.invoke_callback ⟨none, rn, rk, rd, rp, u⟩ r
      = ([], [warn_no_callback])
    ∧ BonjourServiceContext.invoke_callback ⟨none, u2⟩ r2
      = ([], [warn_no_callback]) :=
  ⟨rfl, rfl⟩

/-- C9: for an in-flight chain (`resolved_name` present), a nonzero error
code at the address-resolution stage delivers the failure WITHOUT clearing
`resolved_name`, `resolved_kind` or `resolved_domain`: the handler returns
the error before any `take()`, so the context is exactly unchanged and the
guard stays set — a subsequent firing of the same callback for this chain is
not suppressed and produces a further delivery (shown here for a repeat
firing with the same nonzero code on fresh payload strings). -/
theorem C9_error_keeps_guard (cb : Option Unit) (rk rd : Option String)
    (rp : Nat) (u : Option Nat) (nm : String) (error : Int) (h : error ≠ 0)
    (ip host ip2 host2 : String) :
    handle_get_address_info ⟨cb, some nm, rk, rd, rp, u⟩ error ip host
      = some (⟨cb, some nm, rk, rd, rp, u⟩, [], [],
          .error (address_error_msg error))
    ∧ get_address_info_callback ⟨some (), some nm, rk, rd, rp, u⟩ error ip host
      = some (⟨some (), some nm, rk, rd, rp, u⟩,
          [⟨.error (address_error_msg error), u⟩], [])
    ∧ get_address_info_callback ⟨some (), some nm, rk, rd, rp, u⟩ error ip2
        host2
      = some (⟨some (), some nm, rk, rd, rp, u⟩,
          [⟨.error (address_error_msg error), u⟩], []) := by
  refine ⟨?_, ?_, ?_⟩ <;>
    simp [get_address_info_callback, handle_get_address_info, h,
      BonjourBrowserContext.invoke_callback]

/-- C9 witness: concrete instance at error code 5. -/
theorem C9_error_keeps_guard_witness :
    handle_get_address_info ⟨some (), some "NM", none, none, 0, none⟩ 5 "IP" "H"
      = some (⟨some (), some "NM", none, none, 0, none⟩, [], [],
          .error (address_error_msg 5))
    ∧ get_address_info_callback ⟨some (), some "NM", none, none, 0, none⟩
        5 "IP" "H"
      = some (⟨some (), some "NM", none, none, 0, none⟩,
          [⟨.error (address_error_msg 5), none⟩], [])
    ∧ get_address_info_callback ⟨some (), some "NM", none, none, 0, none⟩
        5 "IP2" "H2"
      = some (⟨some (), some "NM", none, none, 0, none⟩,
          [⟨.error (address_error_msg 5), none⟩], []) :=
  C9_error_keeps_guard (some ()) none none 0 none "NM" 5 (by decide)
    "IP" "H" "IP2" "H2"

/-- C7: for every delivery made by any of the four callbacks (success or
failure, browser or publisher), the user-data handle attached to the delivery
is the context's current `user_context` (a cloned handle), and the context's
stored `user_context` field is unchanged by the callback — so it remains
available for every later delivery on the same Browser or Publisher.  The
delivery lists are stated via `map`: every emitted delivery carries `u`. -/
theorem C7_user_data_preserved (cb scb : Option Unit) (rn rk rd : Option String)
    (rp : Nat) (u su : Option Nat) (error : Int)
    (n k d ht ip rn2 rt2 rd2 : String) (i p : Nat) :
    (browse_callback ⟨cb, rn, rk, rd, rp, u⟩ error n k d i).1.user_context = u
    ∧ (browse_callback ⟨cb, rn, rk, rd, rp, u⟩ error n k d i).2.2.1.map
        BrowseDelivery.userContext
      = (browse_callback ⟨cb, rn, rk, rd, rp, u⟩ error n k d i).2.2.1.map
          (fun _ => u)
    ∧ (resolve_callback ⟨cb, rn, rk, rd, rp, u⟩ error p i ht).1.user_context
      = u
    ∧ (resolve_callback ⟨cb, rn, rk, rd, rp, u⟩ error p i ht).2.2.1.map
        BrowseDelivery.userContext
      = (resolve_callback ⟨cb, rn, rk, rd, rp, u⟩ error p i ht).2.2.1.map
          (fun _ => u)
    ∧ (get_address_info_callback ⟨cb, rn, rk, rd, rp, u⟩ error ip ht).map
        (fun x => x.1.user_context)
      = (get_address_info_callback ⟨cb, rn, rk, rd, rp, u⟩ error ip ht).map
          (fun _ => u)
    ∧ (get_address_info_callback ⟨cb, rn, rk, rd, rp, u⟩ error ip ht).map
        (fun x => x.2.1.map BrowseDelivery.userContext)
      = (get_address_info_callback ⟨cb, rn, rk, rd, rp, u⟩ error ip ht).map
          (fun x => x.2.1.map (fun _ => u))
    ∧ (register_callback ⟨scb, su⟩ error rn2 rt2 rd2).1.map
        RegisterDelivery.userContext
      = (register_callback ⟨scb, su⟩ error rn2 rt2 rd2).1.map (fun _ => su) := by
  by_cases he : error = 0 <;>
    cases cb <;> cases rn <;> cases rd <;> cases rk <;> cases scb <;>
    simp [he, browse_callback, handle_browse, resolve_callback, handle_resolve,
      get_address_info_callback, handle_get_address_info, register_callback,
      handle_register, BonjourBrowserContext.invoke_callback,
      BonjourServiceContext.invoke_callback]
